import Mathlib

/-!
Shallow embedding of `src/package/support.py` from the repository
`james-lattimore/australian-census-data`, together with theorems settling
the specification claims about its data-normalization and
artifact-addressing pipeline.

Modelling conventions:
* A pandas/geopandas cell value is `Value`; a missing value (`None`/`NaN`)
  is `Value.vNull`; a geometry object is opaque, tagged by a natural number.
* Python floats are modelled as `Option Rat` (with `none` for `NaN`);
  none of the claims exercise float-specific behaviour.
* A dataframe (`GDF`) is a column-name list plus a list of rows; a row is an
  association list from column name to value, total over the frame's columns.
* Library calls whose effect matters only through their error behaviour
  (column selection `gdf[columns]`, `astype`) are translated to `Except`
  values; I/O calls (`pio.read_json`, `pio.write_json`, `pio.write_html`,
  `gpd.read_file`) are translated to values describing the action performed,
  since the file contents themselves are external to the program.
-/

/-- A scalar cell of a (geo)dataframe: missing, string, integer, float
(`none` = NaN) or an opaque geometry object. -/
inductive Value where
  | vNull
  | vStr (s : String)
  | vInt (n : Int)
  | vFloat (q : Option Rat)
  | vGeom (g : Nat)
deriving DecidableEq

/-- One row of a dataframe: an association list from column name to value. -/
abbrev Row := List (String × Value)

/-- A (geo)dataframe: its column names and its rows, in order. The row list
index plays the role of the pandas integer index after reset_index. -/
structure GDF where
  cols : List String
  rows : List Row
deriving DecidableEq

/-- One entry of the column configuration dict of `process_data`
(source lines 108-120): source column name, target name, target dtype. -/
structure ColumnSpec where
  name : String
  rename : String
  type : String
deriving DecidableEq

/-- Errors surfaced by `process_data`: `schemaError c` models the pandas
KeyError raised when column `c` is selected but absent (spec: SchemaError);
`typeCoercionError c i` models the `astype` failure on column `c` at row
index `i` (spec: TypeCoercionError). -/
inductive ProcessError where
  | schemaError (column : String)
  | typeCoercionError (column : String) (row : Nat)
deriving DecidableEq

/-- Python runtime errors relevant to this module: `nameError n` models a
NameError raised when the name `n` is referenced but never bound. -/
inductive PyError where
  | nameError (name : String)
deriving DecidableEq

/-- The value of row `r` in column `c`; rows are total over the frame's
columns, so the default is only reached for malformed rows and is the
missing value. -/
def lookupCol (r : Row) (c : String) : Value :=
  (r.lookup c).getD Value.vNull

/-- Source line 110: the boundary-name source column,
gda_type + "_NAME_" + data_year. -/
def locName (gda_type : String) (data_year : Int) : String :=
  gda_type ++ "_NAME_" ++ toString data_year

/-- Source lines 108-120: the effective column-spec list
[location spec, caller's value spec, geometry spec], in this order. -/
def effectiveSpecs (gdf_column : ColumnSpec) (data_year : Int)
    (gda_type : String) : List ColumnSpec :=
  [⟨locName gda_type data_year, "Location", "str"⟩,
   gdf_column,
   ⟨"geometry", "geometry", "geometry"⟩]

/-- The source column names selected at line 128-129. -/
def specNames (gdf_column : ColumnSpec) (data_year : Int)
    (gda_type : String) : List String :=
  (effectiveSpecs gdf_column data_year gda_type).map (fun s => s.name)

/-- Source line 123-125: the boolean mask of the filter
gdf[gdf['geometry'] != None]; a row is kept when its geometry cell is not
the missing value. -/
def keepGeom (r : Row) : Bool :=
  match lookupCol r "geometry" with
  | Value.vNull => false
  | _ => true

/-- Source line 132: the rename dict built from the spec list,
later entries overriding earlier ones as in a Python dict comprehension;
columns not in the dict keep their name. -/
def renameWith (specs : List ColumnSpec) (c : String) : String :=
  match specs.reverse.find? (fun s => s.name == c) with
  | some s => s.rename
  | none => c

/-- Python str(x) as applied by astype(str) to a cell. -/
def pyStr : Value → String
  | Value.vNull => "None"
  | Value.vStr s => s
  | Value.vInt n => toString n
  | Value.vFloat none => "nan"
  | Value.vFloat (some q) => toString q
  | Value.vGeom g => "geom_" ++ toString g

/-- Parse a non-empty run of decimal digits, accumulating into `acc`;
any non-digit character fails the whole parse. -/
def parseDigits : Nat → List Char → Option Nat
  | acc, [] => some acc
  | acc, c :: cs =>
    if c.isDigit then parseDigits (acc * 10 + (c.toNat - 48)) cs else none

/-- Python int(s) on a string cell, as astype(int) applies it to object
cells; only an optional leading minus and decimal digits are modelled. -/
def parseIntStr (s : String) : Option Int :=
  match s.toList with
  | [] => none
  | '-' :: [] => none
  | '-' :: c :: cs => (parseDigits 0 (c :: cs)).map (fun n => -(n : Int))
  | c :: cs => (parseDigits 0 (c :: cs)).map (fun n => (n : Int))

/-- True when every character of `s` is a decimal digit. -/
def allDigits (s : String) : Bool :=
  s.toList.all Char.isDigit

/-- The natural number denoted by a digit string. -/
def digitsVal (s : String) : Nat :=
  s.toList.foldl (fun n c => n * 10 + (c.toNat - 48)) 0

/-- Python float(s) for plain decimal literals (optional sign, digits,
optional fractional part); exponent and special forms are not modelled. -/
def parseFloatStr (s : String) : Option Rat :=
  let sgn : Int := if s.startsWith "-" then -1 else 1
  let t := if s.startsWith "-" || s.startsWith "+" then s.drop 1 else s
  match t.splitOn "." with
  | [a] =>
    if a.length > 0 && allDigits a then
      some ((sgn * (digitsVal a : Int) : Int) : Rat)
    else none
  | [a, b] =>
    if (a.length > 0 || b.length > 0) && allDigits a && allDigits b then
      some (((sgn * ((digitsVal a * 10 ^ b.length + digitsVal b : Nat) : Int) : Int) : Rat) /
        ((10 ^ b.length : Nat) : Rat))
    else none
  | _ => none

/-- Truncation toward zero, as Python int() applied to a float. -/
def truncRat (q : Rat) : Int :=
  if q < 0 then q.ceil else q.floor

/-- Source line 136: `astype` of one cell to the dtype named `t`
('str', 'int', 'float' or 'geometry'); `none` is a coercion failure
(ValueError/TypeError in pandas). Missing values survive astype(str)
as the string "None", astype(float) as NaN and astype(geometry) as a
missing geometry, while astype(int) rejects them; any dtype name outside
the four used by this program is not modelled and fails. -/
def coerceValue (t : String) (v : Value) : Option Value :=
  if t = "str" then some (Value.vStr (pyStr v))
  else if t = "int" then
    match v with
    | Value.vInt n => some (Value.vInt n)
    | Value.vFloat (some q) => some (Value.vInt (truncRat q))
    | Value.vStr s => (parseIntStr s).map Value.vInt
    | _ => none
  else if t = "float" then
    match v with
    | Value.vFloat q => some (Value.vFloat q)
    | Value.vInt n => some (Value.vFloat (some (n : Rat)))
    | Value.vNull => some (Value.vFloat none)
    | Value.vStr s => (parseFloatStr s).map (fun q => Value.vFloat (some q))
    | _ => none
  else if t = "geometry" then
    match v with
    | Value.vGeom g => some (Value.vGeom g)
    | Value.vNull => some Value.vNull
    | _ => none
  else none

/-- True when value `v` inhabits the dtype named `t` (a missing value is a
legal inhabitant of the geometry dtype and of no scalar dtype but float,
which is covered by the `vFloat none` NaN form). -/
def wellTyped (t : String) (v : Value) : Bool :=
  if t = "str" then match v with | Value.vStr _ => true | _ => false
  else if t = "int" then match v with | Value.vInt _ => true | _ => false
  else if t = "float" then match v with | Value.vFloat _ => true | _ => false
  else if t = "geometry" then
    match v with
    | Value.vGeom _ => true
    | Value.vNull => true
    | _ => false
  else false

/-- Source line 135-136: the dtype applied to the renamed column `c`, per
the dict column_types (keyed by target name, later entries overriding);
a column outside the dict is left unchanged. -/
def coerceNamed (specs : List ColumnSpec) (c : String) (v : Value) :
    Option Value :=
  match specs.reverse.find? (fun s => s.rename == c) with
  | some s => coerceValue s.type v
  | none => some v

/-- Source lines 128-133 combined on one row: project the row onto the
selected source columns, in spec order, and rename each to its target. -/
def projectRename (specs : List ColumnSpec) (r : Row) : Row :=
  (specs.map (fun s => s.name)).map
    (fun c => (renameWith specs c, lookupCol r c))

/-- astype applied to the cells of one row (row index `i`); the first
non-coercible cell, scanning left to right, aborts the whole call with a
TypeCoercionError naming that column and the row index. -/
def coerceCells (specs : List ColumnSpec) (i : Nat) : Row → Except ProcessError Row
  | [] => Except.ok []
  | (c, v) :: rest =>
    match coerceNamed specs c v with
    | some w =>
      match coerceCells specs i rest with
      | Except.ok r2 => Except.ok ((c, w) :: r2)
      | Except.error e => Except.error e
    | none => Except.error (ProcessError.typeCoercionError c i)

/-- astype applied to all rows, indexed from `i`; the first failing row
(post-filter index) aborts the whole call. -/
def coerceRows (specs : List ColumnSpec) : Nat → List Row → Except ProcessError (List Row)
  | _, [] => Except.ok []
  | i, r :: rs =>
    match coerceCells specs i r with
    | Except.ok r2 =>
      match coerceRows specs (i + 1) rs with
      | Except.ok rs2 => Except.ok (r2 :: rs2)
      | Except.error e => Except.error e
    | Except.error e => Except.error e

/-- Source lines 79-138, `process_data`: build the effective spec list;
filter out rows with missing geometry (line 123-125; the column access
gdf['geometry'] itself raises KeyError when the frame has no geometry
column); reset the index (line 126; implicit in the list representation);
select the spec'd source columns (line 128-129, KeyError on a missing
column); rename them (line 132-133) and coerce dtypes (line 135-136). -/
def process_data (gdf : GDF) (gdf_column : ColumnSpec) (data_year : Int)
    (gda_type : String) : Except ProcessError GDF :=
  if "geometry" ∈ gdf.cols then
    match (specNames gdf_column data_year gda_type).find?
        (fun c => !(gdf.cols.contains c)) with
    | some c => Except.error (ProcessError.schemaError c)
    | none =>
      match coerceRows (effectiveSpecs gdf_column data_year gda_type) 0
          ((gdf.rows.filter keepGeom).map
            (projectRename (effectiveSpecs gdf_column data_year gda_type))) with
      | Except.ok rows2 =>
        Except.ok ⟨(specNames gdf_column data_year gda_type).map
          (renameWith (effectiveSpecs gdf_column data_year gda_type)), rows2⟩
      | Except.error e => Except.error e
  else Except.error (ProcessError.schemaError "geometry")

/-- An opaque plotly figure object. -/
structure Figure where
  payload : Nat
deriving DecidableEq

/-- The figure-store I/O action performed by `read_figure`/`save_figure`:
a json read, a json write, an html write, or no action at all. -/
inductive FigIO where
  | readJson (path : String)
  | writeJson (path : String)
  | writeHtml (path : String)
  | noop
deriving DecidableEq

/-- The canonical serialization of an artifact key,
topic_boundaryType_year_area_datumSpec, as computed inline at source
lines 249-250 and 300-301. -/
def serialize (data_topic gda_type : String) (data_year : Int)
    (geo_area gda_spec : String) : String :=
  data_topic ++ "_" ++ gda_type ++ "_" ++ toString data_year ++ "_" ++
    geo_area ++ "_" ++ gda_spec

/-- Source lines 214-257, `read_figure`: build the filename from the key
fields and read work_dir/figure/filename.json via pio.read_json. The
function has no encoding/file_type parameter; the result is the read
action performed. -/
def read_figure (work_dir : String) (data_year : Int)
    (data_topic geo_area gda_spec gda_type : String) : FigIO :=
  FigIO.readJson (work_dir ++ "/figure/" ++
    (data_topic ++ "_" ++ gda_type ++ "_" ++ toString data_year ++ "_" ++
      geo_area ++ "_" ++ gda_spec) ++ ".json")

/-- Source lines 259-315, `save_figure`: build the filename from the key
fields; write html when file_type is 'html', json when it is 'json', and
otherwise fall through both branches, performing no write, and return
None (there is no else branch at lines 304-313). -/
def save_figure (work_dir : String) (figure : Figure) (file_type : String)
    (data_year : Int) (data_topic geo_area gda_spec gda_type : String) : FigIO :=
  if file_type = "html" then
    FigIO.writeHtml (work_dir ++ "/figure/" ++
      (data_topic ++ "_" ++ gda_type ++ "_" ++ toString data_year ++ "_" ++
        geo_area ++ "_" ++ gda_spec) ++ ".html")
  else if file_type = "json" then
    FigIO.writeJson (work_dir ++ "/figure/" ++
      (data_topic ++ "_" ++ gda_type ++ "_" ++ toString data_year ++ "_" ++
        geo_area ++ "_" ++ gda_spec) ++ ".json")
  else FigIO.noop

/-- Source lines 317-368, `load_local_data`: build the Geopackage folder,
file, full path and layer names, and delegate to the external vector-file
reader gpd.read_file with that (path, layer) pair; the result is the pair
handed to the reader. -/
def load_local_data (work_dir : String) (data_year : Int)
    (data_topic geo_area gda_spec gda_type : String) : String × String :=
  (work_dir ++ "/raw/" ++
     ("Geopackage_" ++ toString data_year ++ "_" ++ data_topic ++ "_" ++
       geo_area ++ "_" ++ gda_spec) ++ "/" ++
     (data_topic ++ "_" ++ geo_area ++ "_" ++ gda_spec ++ ".gpkg"),
   data_topic ++ "_" ++ gda_type ++ "_" ++ toString data_year ++ "_" ++ geo_area)

/-- The data_config bundle consumed by the loaders (source lines 35-45). -/
structure DataConfig where
  conn_str : String
  data_year : Int
  data_topic : String
  geo_area : String
  gda_spec : String
  gda_type : String
deriving DecidableEq

/-- Source lines 49-77, `load_pro`: its whole body is `return gdf`, and the
name gdf is never bound anywhere in the function (nor at module level), so
every call raises a NameError on gdf and no dataframe is ever returned. -/
def load_pro (work_dir : String) (data_config : DataConfig)
    (cloud : Bool) (overwrite : Bool) : Except PyError GDF :=
  Except.error (PyError.nameError "gdf")

instance {ε α : Type} [DecidableEq ε] [DecidableEq α] : DecidableEq (Except ε α)
  | Except.ok a, Except.ok b =>
    if h : a = b then isTrue (by rw [h]) else isFalse (by intro hh; cases hh; exact h rfl)
  | Except.ok _, Except.error _ => isFalse (by intro h; cases h)
  | Except.error _, Except.ok _ => isFalse (by intro h; cases h)
  | Except.error e, Except.error f =>
    if h : e = f then isTrue (by rw [h]) else isFalse (by intro hh; cases hh; exact h rfl)

/-- The caller-supplied value-column spec of Scenarios A and B:
select source column pop, rename it Population, coerce to int. -/
def popSpec : ColumnSpec := ⟨"pop", "Population", "int"⟩

/-- Scenario A exactly as the spec writes it: the boundary-name cell sits in
a source column literally called name. -/
def gdfScenarioALiteral : GDF :=
  ⟨["name", "pop", "geometry"],
   [[("name", Value.vStr "Brisbane"), ("pop", Value.vStr "2500000"),
     ("geometry", Value.vGeom 1)],
    [("name", Value.vStr "Cairns"), ("pop", Value.vStr "150000"),
     ("geometry", Value.vNull)]]⟩

/-- Scenario A with the boundary-name column carrying the source name the
code actually selects for year 2021 and boundary type SA4. -/
def gdfScenarioA : GDF :=
  ⟨["SA4_NAME_2021", "pop", "geometry"],
   [[("SA4_NAME_2021", Value.vStr "Brisbane"), ("pop", Value.vStr "2500000"),
     ("geometry", Value.vGeom 1)],
    [("SA4_NAME_2021", Value.vStr "Cairns"), ("pop", Value.vStr "150000"),
     ("geometry", Value.vNull)]]⟩

/-- Scenario B: as Scenario A (amended column name) but Brisbane's pop cell
holds the non-numeric text N/A. -/
def gdfScenarioB : GDF :=
  ⟨["SA4_NAME_2021", "pop", "geometry"],
   [[("SA4_NAME_2021", Value.vStr "Brisbane"), ("pop", Value.vStr "N/A"),
     ("geometry", Value.vGeom 1)],
    [("SA4_NAME_2021", Value.vStr "Cairns"), ("pop", Value.vStr "150000"),
     ("geometry", Value.vNull)]]⟩

/-- The normalized table of the amended Scenario A. -/
def outScenarioA : GDF :=
  ⟨["Location", "Population", "geometry"],
   [[("Location", Value.vStr "Brisbane"), ("Population", Value.vInt 2500000),
     ("geometry", Value.vGeom 1)]]⟩

/-- The Scenario-A frame with the value column missing entirely. -/
def gdfMissingPop : GDF :=
  ⟨["SA4_NAME_2021", "geometry"],
   [[("SA4_NAME_2021", Value.vStr "Brisbane"), ("geometry", Value.vGeom 1)]]⟩

/-- C3, counterexample: on the two Scenario-A source rows exactly as the
spec writes them, whose boundary-name column is literally called name,
process_data with year 2021 and boundary type SA4 selects the source
column SA4_NAME_2021, which is absent, so the call fails with a schema
error instead of returning the one-row table the claim promises. -/
theorem scenarioA_literal_counterexample :
    process_data gdfScenarioALiteral popSpec 2021 "SA4" =
      Except.error (ProcessError.schemaError "SA4_NAME_2021") := by
  decide

/-- C3, amended: with the boundary-name column named SA4_NAME_2021 (the
source name process_data derives from year 2021 and boundary type SA4),
the call returns exactly one row, Location Brisbane, Population 2500000
(coerced to int), geometry G1; the null-geometry Cairns row is dropped. -/
theorem scenarioA_amended :
    process_data gdfScenarioA popSpec 2021 "SA4" =
      Except.ok ⟨["Location", "Population", "geometry"],
        [[("Location", Value.vStr "Brisbane"),
          ("Population", Value.vInt 2500000),
          ("geometry", Value.vGeom 1)]]⟩ := by
  decide

/-- C6: for every artifact key, the serialization is the literal
concatenation topic_boundaryType_year_area_datumSpec; read_figure reads
and save_figure (json encoding) writes the figure at
workDir/figure/serialization.json; and for the Scenario-C key the
serialization is G01_SA4_2021_AUST_GDA2020 with figure path
wd/figure/G01_SA4_2021_AUST_GDA2020.json. -/
theorem figure_addressing :
    (∀ (topic t : String) (y : Int) (area sp : String),
      serialize topic t y area sp =
        topic ++ "_" ++ t ++ "_" ++ toString y ++ "_" ++ area ++ "_" ++ sp) ∧
    (∀ (wd : String) (y : Int) (topic area sp t : String),
      read_figure wd y topic area sp t =
        FigIO.readJson (wd ++ "/figure/" ++ serialize topic t y area sp ++ ".json")) ∧
    (∀ (wd : String) (fig : Figure) (y : Int) (topic area sp t : String),
      save_figure wd fig "json" y topic area sp t =
        FigIO.writeJson (wd ++ "/figure/" ++ serialize topic t y area sp ++ ".json")) ∧
    serialize "G01" "SA4" 2021 "AUST" "GDA2020" = "G01_SA4_2021_AUST_GDA2020" ∧
    read_figure "wd" 2021 "G01" "AUST" "GDA2020" "SA4" =
      FigIO.readJson "wd/figure/G01_SA4_2021_AUST_GDA2020.json" := by
  refine ⟨fun topic t y area sp => rfl, fun wd y topic area sp t => rfl,
    fun wd fig y topic area sp t => rfl, ?_, ?_⟩ <;> decide

/-- C7: for every key, local-mode loading hands the external vector-file
reader the path workDir/raw/Geopackage_year_topic_area_datumSpec/
topic_area_datumSpec.gpkg and the layer topic_boundaryType_year_area;
instantiated at the Scenario-C key for concreteness. -/
theorem load_local_addressing :
    (∀ (wd : String) (y : Int) (topic area sp t : String),
      load_local_data wd y topic area sp t =
        (wd ++ "/raw/" ++
           ("Geopackage_" ++ toString y ++ "_" ++ topic ++ "_" ++ area ++ "_" ++ sp) ++
           "/" ++ (topic ++ "_" ++ area ++ "_" ++ sp ++ ".gpkg"),
         topic ++ "_" ++ t ++ "_" ++ toString y ++ "_" ++ area)) ∧
    load_local_data "wd" 2021 "G01" "AUST" "GDA2020" "SA4" =
      ("wd/raw/Geopackage_2021_G01_AUST_GDA2020/G01_AUST_GDA2020.gpkg",
       "G01_SA4_2021_AUST") := by
  exact ⟨fun wd y topic area sp t => rfl, by decide⟩

/-- C8, counterexample: the only figure-loading operation the code defines,
read_figure, takes no encoding argument at all; at the Scenario-C key it
unconditionally performs a json read and raises nothing, so no call of it
fails with an UnsupportedEncoding error for the html encoding. -/
theorem read_figure_html_counterexample :
    read_figure "wd" 2021 "G01" "AUST" "GDA2020" "SA4" =
      FigIO.readJson "wd/figure/G01_SA4_2021_AUST_GDA2020.json" := by
  decide

/-- C8, amended: read_figure has no encoding parameter and for every key
unconditionally reads the self-describing json artifact; the html encoding
simply has no load counterpart (no code path loads an html artifact, and
no UnsupportedEncoding error exists in the code). -/
theorem read_figure_always_json (wd : String) (y : Int)
    (topic area sp t : String) :
    ∃ p, read_figure wd y topic area sp t = FigIO.readJson p ∧
      p = wd ++ "/figure/" ++ serialize topic t y area sp ++ ".json" :=
  ⟨wd ++ "/figure/" ++ serialize topic t y area sp ++ ".json", rfl, rfl⟩

/-- C9, counterexample: save_figure called with file_type xml falls through
both write branches, writes nothing and returns None; no error is raised
to the caller. -/
theorem save_figure_xml_counterexample :
    save_figure "wd" ⟨0⟩ "xml" 2021 "G01" "AUST" "GDA2020" "SA4" =
      FigIO.noop := by
  decide

/-- C9, amended: for every file_type outside html and json, save_figure
silently performs no write and returns None (the if/elif chain at source
lines 304-313 has no else branch), rather than raising an error. -/
theorem save_figure_unknown_type_noop (wd : String) (fig : Figure)
    (ft : String) (y : Int) (topic area sp t : String)
    (h1 : ft ≠ "html") (h2 : ft ≠ "json") :
    save_figure wd fig ft y topic area sp t = FigIO.noop := by
  simp [save_figure, h1, h2]

/-- C9, witness for the amended theorem at file_type xml. -/
theorem save_figure_unknown_type_noop_witness :
    ("xml" ≠ "html") ∧ ("xml" ≠ "json") ∧
    save_figure "w" ⟨1⟩ "xml" 2016 "G40" "QLD" "GDA94" "LGA" = FigIO.noop :=
  ⟨by decide, by decide,
   save_figure_unknown_type_noop "w" ⟨1⟩ "xml" 2016 "G40" "QLD" "GDA94" "LGA"
     (by decide) (by decide)⟩

/-- C10: for every working directory, configuration and flag values,
load_pro fails with a NameError on the never-assigned name gdf and never
returns a dataframe, despite its declared GeoDataFrame return type. -/
theorem load_pro_unbound (wd : String) (cfg : DataConfig)
    (cloud overwrite : Bool) :
    load_pro wd cfg cloud overwrite = Except.error (PyError.nameError "gdf") ∧
    ∀ g, load_pro wd cfg cloud overwrite ≠ Except.ok g := by
  exact ⟨rfl, fun g h => by cases h⟩

theorem lookup_mem {l : Row} {c : String} {v : Value}
    (h : l.lookup c = some v) : (c, v) ∈ l := by
  induction l with
  | nil => simp [List.lookup] at h
  | cons p rest ih =>
    obtain ⟨k, w⟩ := p
    rw [List.lookup] at h
    by_cases hk : c == k
    · rw [hk] at h
      simp at h
      subst h
      exact List.mem_cons.mpr (Or.inl (by rw [eq_of_beq hk]))
    · rw [Bool.not_eq_true] at hk
      rw [hk] at h
      exact List.mem_cons.mpr (Or.inr (ih h))

theorem lookup_isSome_of_key {l : Row} {c : String}
    (h : c ∈ l.map Prod.fst) : ∃ v, l.lookup c = some v := by
  induction l with
  | nil => simp at h
  | cons p rest ih =>
    obtain ⟨k, w⟩ := p
    rw [List.lookup]
    by_cases hk : c == k
    · rw [hk]; exact ⟨w, rfl⟩
    · rw [Bool.not_eq_true] at hk
      rw [hk]
      apply ih
      simp at h ⊢
      cases h with
      | inl heq => exact absurd heq (by intro hh; rw [hh] at hk; simp at hk)
      | inr hm => exact hm

theorem keepGeom_iff {r : Row} :
    keepGeom r = true ↔ lookupCol r "geometry" ≠ Value.vNull := by
  unfold keepGeom
  cases h : lookupCol r "geometry" <;> simp [h]

theorem effectiveSpecs_reverse (col : ColumnSpec) (y : Int) (t : String) :
    (effectiveSpecs col y t).reverse =
      [⟨"geometry", "geometry", "geometry"⟩, col,
       ⟨locName t y, "Location", "str"⟩] := rfl

theorem renameWith_geometry (col : ColumnSpec) (y : Int) (t : String) :
    renameWith (effectiveSpecs col y t) "geometry" = "geometry" := by
  unfold renameWith
  rw [effectiveSpecs_reverse]
  simp [List.find?]

theorem coerceNamed_geometry (col : ColumnSpec) (y : Int) (t : String)
    (v : Value) :
    coerceNamed (effectiveSpecs col y t) "geometry" v =
      coerceValue "geometry" v := by
  unfold coerceNamed
  rw [effectiveSpecs_reverse]
  simp [List.find?]

theorem renameWith_to_geometry {col : ColumnSpec} {y : Int} {t : String}
    {c : String} (h : col.rename ≠ "geometry")
    (heq : renameWith (effectiveSpecs col y t) c = "geometry") :
    c = "geometry" := by
  by_cases hc : c = "geometry"
  · exact hc
  · exfalso
    unfold renameWith at heq
    rw [effectiveSpecs_reverse] at heq
    have h1 : ("geometry" == c) = false :=
      beq_eq_false_iff_ne.mpr (Ne.symm hc)
    cases h2 : (col.name == c) with
    | true =>
      simp only [List.find?, h1, h2] at heq
      exact h heq
    | false =>
      cases h3 : (locName t y == c) with
      | true =>
        simp only [List.find?, h1, h2, h3] at heq
        exact absurd heq (by decide)
      | false =>
        simp only [List.find?, h1, h2, h3] at heq
        exact hc heq

theorem renameWith_locName (col : ColumnSpec) (y : Int) (t : String)
    (hg : locName t y ≠ "geometry") (hc : locName t y ≠ col.name) :
    renameWith (effectiveSpecs col y t) (locName t y) = "Location" := by
  unfold renameWith
  rw [effectiveSpecs_reverse]
  have h1 : ("geometry" == locName t y) = false :=
    beq_eq_false_iff_ne.mpr (Ne.symm hg)
  have h2 : (col.name == locName t y) = false :=
    beq_eq_false_iff_ne.mpr (Ne.symm hc)
  simp [List.find?, h1, h2]

theorem renameWith_valName (col : ColumnSpec) (y : Int) (t : String)
    (hg : col.name ≠ "geometry") :
    renameWith (effectiveSpecs col y t) col.name = col.rename := by
  unfold renameWith
  rw [effectiveSpecs_reverse]
  have h1 : ("geometry" == col.name) = false :=
    beq_eq_false_iff_ne.mpr (Ne.symm hg)
  simp [List.find?, h1]

theorem coerceNamed_location (col : ColumnSpec) (y : Int) (t : String)
    (v : Value) (hr : col.rename ≠ "Location") :
    coerceNamed (effectiveSpecs col y t) "Location" v =
      coerceValue "str" v := by
  unfold coerceNamed
  rw [effectiveSpecs_reverse]
  have h1 : ("geometry" == "Location") = false := by decide
  have h2 : (col.rename == "Location") = false :=
    beq_eq_false_iff_ne.mpr hr
  simp [List.find?, h1, h2]

theorem coerceNamed_value (col : ColumnSpec) (y : Int) (t : String)
    (v : Value) (hr : col.rename ≠ "geometry") :
    coerceNamed (effectiveSpecs col y t) col.rename v =
      coerceValue col.type v := by
  unfold coerceNamed
  rw [effectiveSpecs_reverse]
  have h1 : ("geometry" == col.rename) = false :=
    beq_eq_false_iff_ne.mpr (Ne.symm hr)
  simp [List.find?, h1]

theorem coerceValue_wellTyped {t : String} {v w : Value}
    (h : coerceValue t v = some w) : wellTyped t w = true := by
  unfold coerceValue at h
  unfold wellTyped
  split_ifs at h ⊢ with h1 h2 h3 h4
  · simp at h
    rw [← h]
  · cases v with
    | vNull => simp at h
    | vStr s =>
      simp at h
      obtain ⟨n, _, hw⟩ := h
      rw [← hw]
    | vInt n =>
      simp at h
      rw [← h]
    | vFloat q =>
      cases q with
      | none => simp at h
      | some q2 =>
        simp at h
        rw [← h]
    | vGeom g => simp at h
  · cases v with
    | vNull =>
      simp at h
      rw [← h]
    | vStr s =>
      simp at h
      obtain ⟨n, _, hw⟩ := h
      rw [← hw]
    | vInt n =>
      simp at h
      rw [← h]
    | vFloat q =>
      simp at h
      rw [← h]
    | vGeom g => simp at h
  · cases v with
    | vNull =>
      simp at h
      rw [← h]
    | vStr s => simp at h
    | vInt n => simp at h
    | vFloat q => simp at h
    | vGeom g =>
      simp at h
      rw [← h]

theorem coerceValue_geometry_nonnull {v w : Value}
    (h : coerceValue "geometry" v = some w) (hnn : v ≠ Value.vNull) :
    ∃ g, w = Value.vGeom g := by
  unfold coerceValue at h
  norm_num at h
  cases v with
  | vGeom g => exact ⟨g, by simp at h; exact h.symm⟩
  | vNull => exact absurd rfl hnn
  | vStr s => simp at h
  | vInt n => simp at h
  | vFloat q => simp at h

theorem coerceValue_str_some (v : Value) :
    coerceValue "str" v = some (Value.vStr (pyStr v)) := by
  unfold coerceValue
  norm_num

theorem coerceCells_ok_keys {specs : List ColumnSpec} {i : Nat} :
    ∀ {p r : Row}, coerceCells specs i p = Except.ok r →
      r.map Prod.fst = p.map Prod.fst := by
  intro p
  induction p with
  | nil => intro r h; simp [coerceCells] at h; rw [h]
  | cons hd tl ih =>
    intro r h
    obtain ⟨c, v⟩ := hd
    rw [coerceCells] at h
    cases hcv : coerceNamed specs c v with
    | none => rw [hcv] at h; cases h
    | some w =>
      rw [hcv] at h
      cases htl : coerceCells specs i tl with
      | error e => rw [htl] at h; cases h
      | ok r2 =>
        rw [htl] at h
        injection h with h2
        rw [← h2]
        simp [ih htl]

theorem coerceCells_ok_mem {specs : List ColumnSpec} {i : Nat} :
    ∀ {p r : Row}, coerceCells specs i p = Except.ok r →
      ∀ c v, (c, v) ∈ r →
        ∃ v0, (c, v0) ∈ p ∧ coerceNamed specs c v0 = some v := by
  intro p
  induction p with
  | nil =>
    intro r h c v hm
    simp [coerceCells] at h
    rw [h] at hm
    cases hm
  | cons hd tl ih =>
    intro r h c v hm
    obtain ⟨c1, v1⟩ := hd
    rw [coerceCells] at h
    cases hcv : coerceNamed specs c1 v1 with
    | none => rw [hcv] at h; cases h
    | some w =>
      rw [hcv] at h
      cases htl : coerceCells specs i tl with
      | error e => rw [htl] at h; cases h
      | ok r2 =>
        rw [htl] at h
        injection h with h2
        rw [← h2] at hm
        cases List.mem_cons.mp hm with
        | inl heq =>
          have hc : c = c1 := congrArg Prod.fst heq
          have hv : v = w := congrArg Prod.snd heq
          subst hc hv
          exact ⟨v1, List.mem_cons_self _ _, hcv⟩
        | inr hm2 =>
          obtain ⟨v0, hv0, hcoe⟩ := ih htl c v hm2
          exact ⟨v0, List.mem_cons_of_mem _ hv0, hcoe⟩

theorem coerceCells_error_any_index {specs : List ColumnSpec} :
    ∀ {q : Row} {i : Nat} {e : ProcessError},
      coerceCells specs i q = Except.error e →
      ∀ j, ∃ c, coerceCells specs j q =
        Except.error (ProcessError.typeCoercionError c j) := by
  intro q
  induction q with
  | nil => intro i e h j; simp [coerceCells] at h
  | cons hd tl ih =>
    intro i e h j
    obtain ⟨c, v⟩ := hd
    cases hcv : coerceNamed specs c v with
    | none => exact ⟨c, by rw [coerceCells, hcv]⟩
    | some w =>
      rw [coerceCells, hcv] at h
      cases htl : coerceCells specs i tl with
      | ok r2 => rw [htl] at h; cases h
      | error e2 =>
        obtain ⟨c2, hc2⟩ := ih htl j
        refine ⟨c2, ?_⟩
        rw [coerceCells, hcv, hc2]

theorem coerceCells_error_shape {specs : List ColumnSpec} {q : Row}
    {i : Nat} {e : ProcessError}
    (h : coerceCells specs i q = Except.error e) :
    ∃ c, e = ProcessError.typeCoercionError c i := by
  obtain ⟨c, hc⟩ := coerceCells_error_any_index h i
  rw [h] at hc
  injection hc with h2
  exact ⟨c, h2⟩

theorem coerceCells_error_of_bad_cell {specs : List ColumnSpec}
    {c0 : String} {v0 : Value} :
    ∀ {p : Row}, (c0, v0) ∈ p → coerceNamed specs c0 v0 = none →
      ∀ i, ∃ c, coerceCells specs i p =
        Except.error (ProcessError.typeCoercionError c i) := by
  intro p hm hnone
  induction p with
  | nil => cases hm
  | cons hd tl ih =>
    intro i
    obtain ⟨c, v⟩ := hd
    cases hcv : coerceNamed specs c v with
    | none => exact ⟨c, by rw [coerceCells, hcv]⟩
    | some w =>
      have hm2 : (c0, v0) ∈ tl := by
        cases List.mem_cons.mp hm with
        | inl heq =>
          exfalso
          have hc : c0 = c := congrArg Prod.fst heq
          have hv : v0 = v := congrArg Prod.snd heq
          rw [hc, hv] at hnone
          rw [hnone] at hcv
          cases hcv
        | inr hm2 => exact hm2
      obtain ⟨c2, hc2⟩ := ih hm2 i
      cases htl : coerceCells specs i tl with
      | ok r2 => rw [htl] at hc2; cases hc2
      | error e2 =>
        rw [htl] at hc2
        injection hc2 with h2
        exact ⟨c2, by rw [coerceCells, hcv, htl, h2]⟩

theorem coerceRows_ok_length {specs : List ColumnSpec} :
    ∀ {i : Nat} {rs os : List Row},
      coerceRows specs i rs = Except.ok os → os.length = rs.length := by
  intro i rs
  induction rs generalizing i with
  | nil => intro os h; simp [coerceRows] at h; rw [h]
  | cons r rs ih =>
    intro os h
    rw [coerceRows] at h
    cases h1 : coerceCells specs i r with
    | error e => rw [h1] at h; cases h
    | ok r2 =>
      rw [h1] at h
      cases h2 : coerceRows specs (i + 1) rs with
      | error e => rw [h2] at h; cases h
      | ok rs2 =>
        rw [h2] at h
        injection h with h3
        rw [← h3]
        simp [ih h2]

theorem coerceRows_ok_get {specs : List ColumnSpec} :
    ∀ {i : Nat} {rs os : List Row},
      coerceRows specs i rs = Except.ok os →
      ∀ (k : Nat) (hk : k < rs.length) (hk2 : k < os.length),
        coerceCells specs (i + k) (rs.get ⟨k, hk⟩) =
          Except.ok (os.get ⟨k, hk2⟩) := by
  intro i rs
  induction rs generalizing i with
  | nil => intro os h k hk hk2; cases hk
  | cons r rs ih =>
    intro os h k hk hk2
    rw [coerceRows] at h
    cases h1 : coerceCells specs i r with
    | error e => rw [h1] at h; cases h
    | ok r2 =>
      rw [h1] at h
      cases h2 : coerceRows specs (i + 1) rs with
      | error e => rw [h2] at h; cases h
      | ok rs2 =>
        rw [h2] at h
        injection h with h3
        subst h3
        cases k with
        | zero =>
          rw [Nat.add_zero]
          exact h1
        | succ k2 =>
          have hstep := ih h2 k2 (Nat.lt_of_succ_lt_succ hk) (Nat.lt_of_succ_lt_succ hk2)
          have harith : i + (k2 + 1) = (i + 1) + k2 := by omega
          rw [harith]
          exact hstep

theorem coerceRows_error_of_bad_row {specs : List ColumnSpec} {q : Row}
    (hbadq : ∃ e, coerceCells specs 0 q = Except.error e) :
    ∀ {rs : List Row}, q ∈ rs → ∀ i,
      ∃ c k, coerceRows specs i rs =
        Except.error (ProcessError.typeCoercionError c k) := by
  intro rs hm
  induction rs with
  | nil => cases hm
  | cons r rs ih =>
    intro i
    cases h1 : coerceCells specs i r with
    | error e =>
      obtain ⟨c, hc⟩ := coerceCells_error_shape h1
      exact ⟨c, i, by rw [coerceRows, h1, hc]⟩
    | ok r2 =>
      have hq : q ∈ rs := by
        cases List.mem_cons.mp hm with
        | inl heq =>
          exfalso
          obtain ⟨e, he⟩ := hbadq
          obtain ⟨c, hc⟩ := coerceCells_error_any_index he i
          rw [← heq] at h1
          rw [hc] at h1
          cases h1
        | inr hm2 => exact hm2
      obtain ⟨c, k, hck⟩ := ih hq (i + 1)
      exact ⟨c, k, by rw [coerceRows, h1, hck]⟩

theorem projectRename_keys (specs : List ColumnSpec) (r : Row) :
    (projectRename specs r).map Prod.fst =
      (specs.map (fun s => s.name)).map (renameWith specs) := by
  unfold projectRename
  rw [List.map_map]
  rfl

theorem mem_projectRename {specs : List ColumnSpec} {r : Row}
    {c : String} {v : Value} (h : (c, v) ∈ projectRename specs r) :
    ∃ c0, c0 ∈ specs.map (fun s => s.name) ∧
      c = renameWith specs c0 ∧ v = lookupCol r c0 := by
  unfold projectRename at h
  obtain ⟨c0, hc0, heq⟩ := List.mem_map.mp h
  refine ⟨c0, hc0, ?_, ?_⟩
  · exact (congrArg Prod.fst heq).symm
  · exact (congrArg Prod.snd heq).symm

theorem process_data_ok_inv {gdf : GDF} {col : ColumnSpec} {y : Int}
    {t : String} {out : GDF}
    (h : process_data gdf col y t = Except.ok out) :
    "geometry" ∈ gdf.cols ∧
    (specNames col y t).find? (fun c => !(gdf.cols.contains c)) = none ∧
    coerceRows (effectiveSpecs col y t) 0
        ((gdf.rows.filter keepGeom).map (projectRename (effectiveSpecs col y t))) =
      Except.ok out.rows ∧
    out.cols = (specNames col y t).map (renameWith (effectiveSpecs col y t)) := by
  unfold process_data at h
  split at h
  case isTrue hg =>
    split at h
    case h_1 c heq => cases h
    case h_2 heq =>
      split at h
      case h_1 rows2 heq2 =>
        injection h with h2
        rw [← h2]
        exact ⟨hg, heq, by rw [heq2], rfl⟩
      case h_2 e heq2 => cases h
  case isFalse hg => cases h

theorem row_geom_of_ok {col : ColumnSpec} {y : Int} {t : String}
    {src : Row} {r : Row} {k : Nat}
    (h : col.rename ≠ "geometry")
    (hkeep : keepGeom src = true)
    (hcell : coerceCells (effectiveSpecs col y t) k
        (projectRename (effectiveSpecs col y t) src) = Except.ok r) :
    ∃ g, r.lookup "geometry" = some (Value.vGeom g) := by
  have hkeys : r.map Prod.fst =
      ((effectiveSpecs col y t).map (fun s => s.name)).map
        (renameWith (effectiveSpecs col y t)) := by
    rw [coerceCells_ok_keys hcell, projectRename_keys]
  have hmemkey : "geometry" ∈ r.map Prod.fst := by
    rw [hkeys]
    refine List.mem_map.mpr ⟨"geometry", ?_, (renameWith_geometry col y t)⟩
    simp [effectiveSpecs]
  obtain ⟨v, hv⟩ := lookup_isSome_of_key hmemkey
  obtain ⟨v0, hv0mem, hv0coe⟩ :=
    coerceCells_ok_mem hcell "geometry" v (lookup_mem hv)
  obtain ⟨c0, hc0mem, hc0eq, hc0val⟩ := mem_projectRename hv0mem
  have hc0 : c0 = "geometry" := renameWith_to_geometry h hc0eq.symm
  subst hc0
  rw [coerceNamed_geometry] at hv0coe
  have hnn : v0 ≠ Value.vNull := by
    rw [hc0val]
    exact keepGeom_iff.mp hkeep
  obtain ⟨g, hg⟩ := coerceValue_geometry_nonnull hv0coe hnn
  exact ⟨g, by rw [hv, hg]⟩

theorem process_data_ok_get {gdf : GDF} {col : ColumnSpec} {y : Int}
    {t : String} {out : GDF}
    (hok : process_data gdf col y t = Except.ok out) :
    out.rows.length = (gdf.rows.filter keepGeom).length ∧
    ∀ (k : Nat) (hk : k < (gdf.rows.filter keepGeom).length)
        (hk2 : k < out.rows.length),
      coerceCells (effectiveSpecs col y t) k
          (projectRename (effectiveSpecs col y t)
            ((gdf.rows.filter keepGeom).get ⟨k, hk⟩)) =
        Except.ok (out.rows.get ⟨k, hk2⟩) := by
  obtain ⟨hg, hfind, hrows, hcols⟩ := process_data_ok_inv hok
  constructor
  · have h2 := coerceRows_ok_length hrows
    simpa using h2
  · intro k hk hk2
    have hk3 : k < ((gdf.rows.filter keepGeom).map
        (projectRename (effectiveSpecs col y t))).length := by
      simpa using hk
    have hcell := coerceRows_ok_get hrows k hk3 hk2
    rw [Nat.zero_add] at hcell
    rw [List.get_map] at hcell
    exact hcell

/-- C1: whenever process_data returns a table, every returned record's
geometry cell holds an actual geometry (never the missing value), the
number of returned records is at most the number of input records and
equals the number of surviving (non-null-geometry) input records, and the
k-th returned record is derived (projection, rename, dtype coercion) from
the k-th surviving input record in source order, i.e. the survivors are
reindexed contiguously 0..N-1 preserving their relative source order. -/
theorem process_data_geometry_filter
    (gdf : GDF) (col : ColumnSpec) (y : Int) (t : String) (out : GDF)
    (h : col.rename ≠ "geometry")
    (hok : process_data gdf col y t = Except.ok out) :
    (∀ r ∈ out.rows, ∃ g, r.lookup "geometry" = some (Value.vGeom g)) ∧
    out.rows.length ≤ gdf.rows.length ∧
    out.rows.length = (gdf.rows.filter keepGeom).length ∧
    (∀ (k : Nat) (hk : k < (gdf.rows.filter keepGeom).length)
        (hk2 : k < out.rows.length),
      coerceCells (effectiveSpecs col y t) k
          (projectRename (effectiveSpecs col y t)
            ((gdf.rows.filter keepGeom).get ⟨k, hk⟩)) =
        Except.ok (out.rows.get ⟨k, hk2⟩)) := by
  obtain ⟨hlen, hget⟩ := process_data_ok_get hok
  refine ⟨?_, ?_, hlen, hget⟩
  · intro r hr
    obtain ⟨⟨k, hk2⟩, hgetr⟩ := List.mem_iff_get.mp hr
    have hk : k < (gdf.rows.filter keepGeom).length := by
      rw [← hlen]; exact hk2
    have hkeep : keepGeom ((gdf.rows.filter keepGeom).get ⟨k, hk⟩) = true :=
      (List.mem_filter.mp (List.get_mem _ _ _)).2
    have hcell := hget k hk hk2
    rw [hgetr] at hcell
    exact row_geom_of_ok h hkeep hcell
  · rw [hlen]
    exact List.length_filter_le _ _

theorem coerceCells_three {specs : List ColumnSpec} {k : Nat}
    {c1 c2 c3 : String} {a b c : Value} {r : Row}
    (h : coerceCells specs k [(c1, a), (c2, b), (c3, c)] = Except.ok r) :
    ∃ w1 w2 w3, coerceNamed specs c1 a = some w1 ∧
      coerceNamed specs c2 b = some w2 ∧
      coerceNamed specs c3 c = some w3 ∧
      r = [(c1, w1), (c2, w2), (c3, w3)] := by
  cases h1 : coerceNamed specs c1 a with
  | none => rw [coerceCells, h1] at h; cases h
  | some w1 =>
    cases h2 : coerceNamed specs c2 b with
    | none => rw [coerceCells, h1, coerceCells, h2] at h; cases h
    | some w2 =>
      cases h3 : coerceNamed specs c3 c with
      | none => rw [coerceCells, h1, coerceCells, h2, coerceCells, h3] at h; cases h
      | some w3 =>
        simp only [coerceCells, h1, h2, h3] at h
        refine ⟨w1, w2, w3, rfl, rfl, rfl, ?_⟩
        injection h with h4
        exact h4.symm

theorem effectiveSpecs_names (col : ColumnSpec) (y : Int) (t : String) :
    (effectiveSpecs col y t).map (fun s => s.name) =
      [locName t y, col.name, "geometry"] := rfl

theorem projectRename_three (col : ColumnSpec) (y : Int) (t : String)
    (src : Row)
    (h1 : col.rename ≠ "Location") (h2 : col.rename ≠ "geometry")
    (h3 : col.name ≠ locName t y) (h4 : locName t y ≠ "geometry")
    (h5 : col.name ≠ "geometry") :
    projectRename (effectiveSpecs col y t) src =
      [("Location", lookupCol src (locName t y)),
       (col.rename, lookupCol src col.name),
       ("geometry", lookupCol src "geometry")] := by
  unfold projectRename
  rw [effectiveSpecs_names]
  simp only [List.map]
  rw [renameWith_locName col y t h4 (Ne.symm h3),
      renameWith_valName col y t h5, renameWith_geometry]

/-- C2: whenever process_data returns a table, the table has exactly the
three columns Location, value (under the caller's targetName) and
geometry, in that order; every returned record has exactly that shape,
with Location a string (astype str), the value cell coerced to the
caller's declared dtype and the geometry cell an actual geometry object;
this holds regardless of how many columns the source frame supplied. The
hypotheses record input validity: the caller's rename and source name must
not collide with the two implicit specs' names. -/
theorem process_data_schema_shape
    (gdf : GDF) (col : ColumnSpec) (y : Int) (t : String) (out : GDF)
    (h1 : col.rename ≠ "Location") (h2 : col.rename ≠ "geometry")
    (h3 : col.name ≠ locName t y) (h4 : locName t y ≠ "geometry")
    (h5 : col.name ≠ "geometry")
    (hok : process_data gdf col y t = Except.ok out) :
    out.cols = ["Location", col.rename, "geometry"] ∧
    ∀ r ∈ out.rows, ∃ s v g,
      r = [("Location", Value.vStr s), (col.rename, v),
           ("geometry", Value.vGeom g)] ∧
      wellTyped col.type v = true := by
  obtain ⟨hg, hfind, hrows, hcols⟩ := process_data_ok_inv hok
  obtain ⟨hlen, hget⟩ := process_data_ok_get hok
  constructor
  · rw [hcols]
    unfold specNames
    rw [effectiveSpecs_names]
    simp only [List.map]
    rw [renameWith_locName col y t h4 (Ne.symm h3),
        renameWith_valName col y t h5, renameWith_geometry]
  · intro r hr
    obtain ⟨⟨k, hk2⟩, hgetr⟩ := List.mem_iff_get.mp hr
    have hk : k < (gdf.rows.filter keepGeom).length := by
      rw [← hlen]; exact hk2
    have hkeep : keepGeom ((gdf.rows.filter keepGeom).get ⟨k, hk⟩) = true :=
      (List.mem_filter.mp (List.get_mem _ _ _)).2
    have hcell := hget k hk hk2
    rw [hgetr] at hcell
    rw [projectRename_three col y t _ h1 h2 h3 h4 h5] at hcell
    obtain ⟨w1, w2, w3, e1, e2, e3, hreq⟩ := coerceCells_three hcell
    rw [coerceNamed_location col y t _ h1, coerceValue_str_some] at e1
    rw [coerceNamed_value col y t _ h2] at e2
    rw [coerceNamed_geometry] at e3
    have hnn : lookupCol ((gdf.rows.filter keepGeom).get ⟨k, hk⟩) "geometry" ≠
        Value.vNull := keepGeom_iff.mp hkeep
    obtain ⟨g, hgeq⟩ := coerceValue_geometry_nonnull e3 hnn
    injection e1 with e1v
    refine ⟨pyStr (lookupCol ((gdf.rows.filter keepGeom).get ⟨k, hk⟩) (locName t y)),
      w2, g, ?_, coerceValue_wellTyped e2⟩
    rw [hreq, ← e1v, hgeq]

/-- C4: when any entry of the effective spec list (the caller's ColumnSpec
or the implicit boundary-name/geometry specs) names a source column absent
from the input frame, process_data fails for the whole call with a schema
error on a missing column; it never returns a table (no silent dropping of
the column, no per-row skipping). -/
theorem process_data_missing_column
    (gdf : GDF) (col : ColumnSpec) (y : Int) (t : String)
    (hmiss : ∃ s ∈ effectiveSpecs col y t, s.name ∉ gdf.cols) :
    (∃ c, process_data gdf col y t =
        Except.error (ProcessError.schemaError c) ∧ c ∉ gdf.cols) ∧
    ∀ out, process_data gdf col y t ≠ Except.ok out := by
  have hmain : ∃ c, process_data gdf col y t =
      Except.error (ProcessError.schemaError c) ∧ c ∉ gdf.cols := by
    by_cases hg : "geometry" ∈ gdf.cols
    · obtain ⟨s, hs, hsn⟩ := hmiss
      have hname : s.name ∈ specNames col y t :=
        List.mem_map.mpr ⟨s, hs, rfl⟩
      have hpred : (fun c => !(gdf.cols.contains c)) s.name = true := by
        simp [hsn]
      have hsome : ((specNames col y t).find?
          (fun c => !(gdf.cols.contains c))).isSome :=
        List.find?_isSome.mpr ⟨s.name, hname, hpred⟩
      obtain ⟨c, hc⟩ := Option.isSome_iff_exists.mp hsome
      have hcprop := List.find?_some hc
      have hcnot : c ∉ gdf.cols := by simpa using hcprop
      refine ⟨c, ?_, hcnot⟩
      unfold process_data
      rw [if_pos hg, hc]
    · refine ⟨"geometry", ?_, hg⟩
      unfold process_data
      rw [if_neg hg]
  obtain ⟨c, hc, hcn⟩ := hmain
  refine ⟨⟨c, hc, hcn⟩, ?_⟩
  intro out hout
  rw [hout] at hc
  cases hc

/-- C5: when every spec'd source column is present (so selection succeeds)
but some surviving row has a cell that cannot be coerced to its renamed
column's declared dtype, process_data fails for the whole call with a type
coercion error naming a column and a (post-filter) row index; no
partially-typed table is ever returned. -/
theorem process_data_coercion_fatal
    (gdf : GDF) (col : ColumnSpec) (y : Int) (t : String)
    (hcols : ∀ s ∈ effectiveSpecs col y t, s.name ∈ gdf.cols)
    (hbad : ∃ r ∈ gdf.rows.filter keepGeom,
      ∃ p ∈ projectRename (effectiveSpecs col y t) r,
        coerceNamed (effectiveSpecs col y t) p.1 p.2 = none) :
    (∃ c k, process_data gdf col y t =
        Except.error (ProcessError.typeCoercionError c k)) ∧
    ∀ out, process_data gdf col y t ≠ Except.ok out := by
  have hg : "geometry" ∈ gdf.cols := by
    apply hcols ⟨"geometry", "geometry", "geometry"⟩
    simp [effectiveSpecs]
  have hfind : (specNames col y t).find?
      (fun c => !(gdf.cols.contains c)) = none := by
    rw [List.find?_eq_none]
    intro c hcmem
    obtain ⟨s, hs, hseq⟩ := List.mem_map.mp hcmem
    have hin := hcols s hs
    rw [hseq] at hin
    simp [hin]
  obtain ⟨r, hrmem, p, hpmem, hpnone⟩ := hbad
  obtain ⟨c0, v0⟩ := p
  obtain ⟨cx, hcx⟩ := coerceCells_error_of_bad_cell hpmem hpnone 0
  have hbadrow : ∃ e, coerceCells (effectiveSpecs col y t) 0
      (projectRename (effectiveSpecs col y t) r) = Except.error e :=
    ⟨ProcessError.typeCoercionError cx 0, hcx⟩
  have hrs : projectRename (effectiveSpecs col y t) r ∈
      (gdf.rows.filter keepGeom).map (projectRename (effectiveSpecs col y t)) :=
    List.mem_map_of_mem _ hrmem
  obtain ⟨c, k, hck⟩ := coerceRows_error_of_bad_row hbadrow hrs 0
  have hmain : process_data gdf col y t =
      Except.error (ProcessError.typeCoercionError c k) := by
    unfold process_data
    rw [if_pos hg, hfind, hck]
  refine ⟨⟨c, k, hmain⟩, ?_⟩
  intro out hout
  rw [hout] at hmain
  cases hmain

/-- C1, witness at the amended Scenario A input. -/
theorem process_data_geometry_filter_witness :
    popSpec.rename ≠ "geometry" ∧
    process_data gdfScenarioA popSpec 2021 "SA4" = Except.ok outScenarioA ∧
    ((∀ r ∈ outScenarioA.rows, ∃ g, r.lookup "geometry" = some (Value.vGeom g)) ∧
     outScenarioA.rows.length ≤ gdfScenarioA.rows.length ∧
     outScenarioA.rows.length = (gdfScenarioA.rows.filter keepGeom).length ∧
     (∀ (k : Nat) (hk : k < (gdfScenarioA.rows.filter keepGeom).length)
         (hk2 : k < outScenarioA.rows.length),
       coerceCells (effectiveSpecs popSpec 2021 "SA4") k
           (projectRename (effectiveSpecs popSpec 2021 "SA4")
             ((gdfScenarioA.rows.filter keepGeom).get ⟨k, hk⟩)) =
         Except.ok (outScenarioA.rows.get ⟨k, hk2⟩))) :=
  ⟨by decide, by decide,
   process_data_geometry_filter gdfScenarioA popSpec 2021 "SA4" outScenarioA
     (by decide) (by decide)⟩

/-- C2, witness at the amended Scenario A input. -/
theorem process_data_schema_shape_witness :
    popSpec.rename ≠ "Location" ∧ popSpec.rename ≠ "geometry" ∧
    popSpec.name ≠ locName "SA4" 2021 ∧ locName "SA4" 2021 ≠ "geometry" ∧
    popSpec.name ≠ "geometry" ∧
    process_data gdfScenarioA popSpec 2021 "SA4" = Except.ok outScenarioA ∧
    (outScenarioA.cols = ["Location", popSpec.rename, "geometry"] ∧
     ∀ r ∈ outScenarioA.rows, ∃ s v g,
       r = [("Location", Value.vStr s), (popSpec.rename, v),
            ("geometry", Value.vGeom g)] ∧
       wellTyped popSpec.type v = true) :=
  ⟨by decide, by decide, by decide, by decide, by decide, by decide,
   process_data_schema_shape gdfScenarioA popSpec 2021 "SA4" outScenarioA
     (by decide) (by decide) (by decide) (by decide) (by decide) (by decide)⟩

/-- C4, witness on a frame lacking the spec'd value column pop. -/
theorem process_data_missing_column_witness :
    (∃ s ∈ effectiveSpecs popSpec 2021 "SA4", s.name ∉ gdfMissingPop.cols) ∧
    ((∃ c, process_data gdfMissingPop popSpec 2021 "SA4" =
        Except.error (ProcessError.schemaError c) ∧ c ∉ gdfMissingPop.cols) ∧
     ∀ out, process_data gdfMissingPop popSpec 2021 "SA4" ≠ Except.ok out) :=
  ⟨by decide,
   process_data_missing_column gdfMissingPop popSpec 2021 "SA4" (by decide)⟩

/-- C5, witness at the Scenario B input, additionally pinning down the
exact error: column Population, post-filter row 0. -/
theorem process_data_coercion_fatal_witness :
    (∀ s ∈ effectiveSpecs popSpec 2021 "SA4", s.name ∈ gdfScenarioB.cols) ∧
    (∃ r ∈ gdfScenarioB.rows.filter keepGeom,
      ∃ p ∈ projectRename (effectiveSpecs popSpec 2021 "SA4") r,
        coerceNamed (effectiveSpecs popSpec 2021 "SA4") p.1 p.2 = none) ∧
    ((∃ c k, process_data gdfScenarioB popSpec 2021 "SA4" =
        Except.error (ProcessError.typeCoercionError c k)) ∧
     ∀ out, process_data gdfScenarioB popSpec 2021 "SA4" ≠ Except.ok out) ∧
    process_data gdfScenarioB popSpec 2021 "SA4" =
      Except.error (ProcessError.typeCoercionError "Population" 0) :=
  ⟨by decide, by decide,
   process_data_coercion_fatal gdfScenarioB popSpec 2021 "SA4"
     (by decide) (by decide),
   by decide⟩
